import Mathlib

/-!
Shallow embedding of the decision-critique pipeline of `src/streamlit_app.py`:
text-signal utilities, the intent decoder, the bias detector, the confidence
scorer, the heuristic argument generators, the external-call JSON salvage and
the orchestration performed by the submitted handler.
-/

namespace DisagreeApp

/-- Python str.lower, modelled characterwise with Char.toLower (ASCII letters). -/
def lower (s : String) : String := String.mk (s.toList.map Char.toLower)

/-- Python str.strip, modelled over the character list (String.trim is
iterator-based and does not reduce in the kernel). -/
def pstrip (s : String) : String :=
  String.mk (((s.toList.dropWhile Char.isWhitespace).reverse.dropWhile Char.isWhitespace).reverse)

/-- Python substring test `k in t` over the characters of the two strings. -/
def strContains (t k : String) : Bool :=
  t.toList.tails.any (fun suf => k.toList.isPrefixOf suf)

/-- clamp from the source: max(lo, min(hi, n)). -/
def clamp (n lo hi : Int) : Int := max lo (min hi n)

/-- contains_any from the source: lower the text, test each keyword as a substring. -/
def contains_any (text : String) (keywords : List String) : Bool :=
  keywords.any (fun k => strContains (lower text) k)

/-- Word character for the regex word boundary (letters, digits, underscore;
the source texts are ASCII, where Python's \w agrees with Char.isAlphanum). -/
def isWordChar (c : Char) : Bool := c.isAlphanum || c = '_'

/-- Whitespace for the regex \s class. -/
def isSpaceChar (c : Char) : Bool :=
  c = ' ' || c = '\t' || c = '\n' || c = '\r' || c = '\x0b' || c = '\x0c'

/-- Whether the head of the character list is a word character; an empty list
counts as a non-word position, i.e. an end-of-text word boundary. -/
def headWord (cs : List Char) : Bool := isWordChar (cs.headD ' ')

/-- One pass of re.findall over the text for the numeric-token pattern
of count_numbers (word boundary, digits, optional dot and digits, word
boundary), counting the non-overlapping matches left to right. prevW says
whether the previous character was a word character; the fuel bounds the
recursion and is initialised to the length of the list, which suffices
because every step consumes at least one character. -/
def countNumAux : Nat → Bool → List Char → Nat
  | 0, _, _ => 0
  | _, _, [] => 0
  | fuel + 1, prevW, c :: rest =>
    if !prevW && c.isDigit then
      let r1 := List.dropWhile Char.isDigit (c :: rest)
      match r1 with
      | '.' :: r2 =>
        let r3 := List.dropWhile Char.isDigit r2
        if r3.length < r2.length && !headWord r3 then
          1 + countNumAux fuel true r3
        else
          1 + countNumAux fuel true r1
      | _ =>
        if !headWord r1 then 1 + countNumAux fuel true r1
        else countNumAux fuel (isWordChar c) rest
    else
      countNumAux fuel (isWordChar c) rest

/-- count_numbers from the source: the number of matches of the numeric-token
regex in the text. -/
def count_numbers (text : String) : Nat :=
  countNumAux text.toList.length false text.toList

/-- Prepositions of the timeframe regex, in alternation order. -/
def tfPreps : List String := ["in", "within", "over"]

/-- Units of the timeframe regex, in alternation order. -/
def tfUnits : List String :=
  ["day", "days", "week", "weeks", "month", "months", "quarter", "quarters", "year", "years"]

/-- Match the tail of the timeframe regex after the preposition: one or more
spaces, the digit group, one or more spaces, a unit followed by a word
boundary. Returns the digit group and the unit group. -/
def tfAfterPrep (r : List Char) : Option (String × String) :=
  let r1 := List.dropWhile isSpaceChar r
  if r1.length = r.length then none
  else
    let ds := List.takeWhile Char.isDigit r1
    let r2 := List.dropWhile Char.isDigit r1
    if ds.isEmpty then none
    else
      let r3 := List.dropWhile isSpaceChar r2
      if r3.length = r2.length then none
      else
        (tfUnits.filterMap (fun u =>
          if u.toList.isPrefixOf r3 && !headWord (r3.drop u.length) then
            some (String.mk ds, u)
          else none)).head?

/-- Try the full timeframe regex at this position (the word boundary before the
position is checked by the caller), trying the prepositions in alternation
order. -/
def tfMatchAt (cs : List Char) : Option (String × String) :=
  (tfPreps.filterMap (fun p =>
    if p.toList.isPrefixOf cs then tfAfterPrep (cs.drop p.length) else none)).head?

/-- re.search for the timeframe pattern: scan left to right for the first
position sitting at a word boundary where the pattern matches. -/
def tfSearch : Bool → List Char → Option (String × String)
  | _, [] => none
  | prevW, c :: rest =>
    match if prevW then none else tfMatchAt (c :: rest) with
    | some r => some r
    | none => tfSearch (isWordChar c) rest

/-- The three boolean signals of the Intent Record. -/
structure Signals where
  urgency : Bool
  scale : Bool
  certainty : Bool
deriving DecidableEq

/-- The Intent Record produced by the intent decoder. -/
structure Intent where
  decision : String
  context : String
  timeframe : String
  signals : Signals
deriving DecidableEq

/-- Agent 1, intent_decoder from the source: trim both strings, extract the
timeframe with the regex over the lower-cased decision text, compute the three
keyword signals. -/
def intent_decoder (decision_text : String) (context : String) : Intent :=
  let text := pstrip decision_text
  let ctx := pstrip context
  let timeframe :=
    match tfSearch false (lower text).toList with
    | some (n, u) => n ++ " " ++ u
    | none => "Not specified"
  { decision := text
    context := ctx
    timeframe := timeframe
    signals :=
      { urgency := contains_any text ["asap", "immediately", "right away", "urgent"]
        scale := contains_any text ["scale", "roll out", "rollout", "expand", "enterprise-wide"]
        certainty := contains_any text ["no-brainer", "sure", "guaranteed", "can’t fail", "can't fail"] } }

/-- Sentinel entry of the bias detector when no rule fires. -/
def noBiasSentinel : String := "No strong bias detected (based on visible signals)"

/-- Agent 2, bias_detector from the source: check the four keyword rules in
order against the lower-cased decision text, collect the fired labels, and
fall back to the sentinel entry when none fires. -/
def bias_detector (intent : Intent) : List String :=
  let text := lower intent.decision
  let flags :=
    (if contains_any text ["no-brainer", "sure", "guaranteed", "can’t fail", "can't fail"] then
      ["Overconfidence bias"] else []) ++
    (if contains_any text ["everyone", "obvious", "clearly"] then
      ["Social proof / groupthink"] else []) ++
    (if contains_any text ["quick", "fast", "asap", "immediately"] then
      ["Optimism / planning fallacy"] else []) ++
    (if contains_any text ["we've already invested", "sunk cost", "too much to stop"] then
      ["Sunk cost fallacy"] else [])
  if flags = [] then [noBiasSentinel] else flags

/-- Rule table of the bias detector: the keyword list and the label of each of
the four rules, in the source's fixed check order. Reformulates the claim's
"fired labels in the fixed rule-check order" for comparison with the
append-chain of bias_detector. -/
def biasRules : List (List String × String) :=
  [(["no-brainer", "sure", "guaranteed", "can’t fail", "can't fail"], "Overconfidence bias"),
   (["everyone", "obvious", "clearly"], "Social proof / groupthink"),
   (["quick", "fast", "asap", "immediately"], "Optimism / planning fallacy"),
   (["we've already invested", "sunk cost", "too much to stop"], "Sunk cost fallacy")]

/-- Labels of the rules that fire on the intent's lower-cased decision text,
in rule-check order. -/
def firedBiasLabels (intent : Intent) : List String :=
  (biasRules.filter (fun r => contains_any (lower intent.decision) r.1)).map (fun r => r.2)

/-- confidence_score from the source: base 55, numeric-specificity bonus,
evidence bonus, certainty penalty, length penalties, clamped to 0..100. -/
def confidence_score (decision_text context_text : String) : Int :=
  let text := decision_text ++ " " ++ context_text
  let t := lower text
  let score : Int := 55
  let nums := count_numbers text
  let score := score + clamp ((nums : Int) * 4) 0 20
  let score :=
    if contains_any t ["because", "due to", "based on", "data", "analysis", "pilot", "experiment", "evidence"] then
      score + 10 else score
  let score :=
    if contains_any t ["no-brainer", "guaranteed", "can't fail", "can’t fail", "zero risk", "no risk"] then
      score - 15 else score
  let score := if (pstrip decision_text).length < 40 then score - 10 else score
  let score := if (pstrip context_text).length < 20 then score - 5 else score
  clamp score 0 100

/-- Fixed pre-mortem prompt, first hard addition of the counterargument generator. -/
def premortemPrompt : String :=
  "Pre-mortem: assume this fails in 6 months—what is the most likely reason?"

/-- Fixed irreversible-cost prompt, second hard addition of the counterargument generator. -/
def irreversiblePrompt : String :=
  "If your key assumption is wrong, what irreversible cost (reputation, money, talent) do you incur?"

/-- hard_additions list from the source. -/
def hard_additions : List String := [premortemPrompt, irreversiblePrompt]

/-- Conditional templates of counterargument_generator: the counters list as
built by the source's six condition checks, before the fallback entry, the
hard additions and the truncation. -/
def counterTemplates (intent : Intent) : List String :=
  let text := lower intent.decision
  let ctx := lower intent.context
  (if contains_any text ["launch", "rollout", "ship", "release"] then
      ["Launching on an aggressive timeline increases execution risk and reduces time for validation."] else []) ++
    (if intent.signals.scale then
      ["Scaling before validating assumptions can amplify losses and create operational/technical debt."] else []) ++
    (if intent.signals.urgency then
      ["Urgency can crowd out risk discovery—what critical unknowns are you skipping because of time pressure?"] else []) ++
    (if contains_any text ["marketing", "campaign", "spend"] then
      ["Upfront spend can create commitment bias—consider staged investment tied to measurable outcomes."] else []) ++
    (if intent.signals.certainty then
      ["High certainty may be masking untested assumptions—what evidence would change your mind?"] else []) ++
    (if contains_any ctx ["budget", "$", "limited"] then
      ["With a constrained budget, downside scenarios matter more—what if adoption is 50% of forecast?"] else [])

/-- Counters list of counterargument_generator right before the hard additions
and the truncation: the conditional templates, or the generic fallback entry
when none fired. -/
def counterBase (intent : Intent) : List String :=
  if counterTemplates intent = [] then
    ["The decision may be underestimating uncertainty and external dependencies (people, vendors, systems, approvals)."]
  else counterTemplates intent

/-- Cap dictionary of counterargument_generator: a Python dict lookup keyed
exactly on 1..5, raising KeyError outside that range, hence Option. -/
def maxN (disagree_level : Nat) : Option Nat :=
  List.lookup disagree_level [(1, 2), (2, 3), (3, 4), (4, 5), (5, 6)]

/-- counterargument_generator from the source: conditional templates, hard
additions appended at intensity 3 and above resp. 5, then truncation to the
cap given by the maxN dictionary. -/
def counterargument_generator (intent : Intent) (disagree_level : Nat) : Option (List String) :=
  let counters := counterBase intent
  let counters := if 3 ≤ disagree_level then counters ++ [premortemPrompt] else counters
  let counters := if 5 ≤ disagree_level then counters ++ [irreversiblePrompt] else counters
  match maxN disagree_level with
  | some n => some (counters.take n)
  | none => none

/-- second_order_impacts from the source: two conditional templates, two
always-included templates, one template at intensity 4 and above. -/
def second_order_impacts (intent : Intent) (disagree_level : Nat) : List String :=
  let text := lower intent.decision
  (if contains_any text ["launch", "rollout", "ship", "release", "scale", "expand"] then
    ["Operational load may spike faster than team capacity, increasing failure rate and burnout."] else []) ++
  (if contains_any text ["integration", "integrations", "platform", "systems"] then
    ["Integration delays can cascade into missed timelines and budget overruns."] else []) ++
  ["If early outcomes disappoint, reversing course may be reputationally costly.",
   "Short-term optimization may reduce long-term optionality (harder pivots, locked-in commitments)."] ++
  (if 4 ≤ disagree_level then
    ["Stakeholder trust can degrade if timelines are missed—slowing approvals for future initiatives."] else [])

/-- Fixed ordered recommendation list of derisk_recommendations. -/
def derisk_recs_list : List String :=
  ["Run a time-bound pilot to validate key assumptions before full commitment.",
   "Define explicit go/no-go criteria (metrics, thresholds, owners, dates).",
   "Stage funding/spend in tranches tied to outcomes rather than upfront commitments.",
   "Add a decision checkpoint before any irreversible investment (contracts, major hiring, public commitments)."]

/-- derisk_recommendations from the source: the first 3 entries at intensity at
most 3, all 4 above. -/
def derisk_recommendations (disagree_level : Nat) : List String :=
  derisk_recs_list.take (if disagree_level ≤ 3 then 3 else 4)

/-- Parsed external reply: the three expected keys, each possibly missing,
read by the handler with a Python dict .get defaulting to the empty list. -/
structure LLMOut where
  counterarguments : Option (List String)
  impacts : Option (List String)
  recommendations : Option (List String)
deriving DecidableEq

/-- Outcome of openai_one_call as seen by the submitted handler: a parsed
reply, or an exception carrying its message (transport, credential or parse
failure). -/
inductive CallResult where
  | ok (out : LLMOut)
  | err (msg : String)
deriving DecidableEq

/-- Python str.find of a single character: index of its first occurrence. -/
def strFind (s : String) (c : Char) : Option Nat :=
  s.toList.findIdx? (fun x => x = c)

/-- Python str.rfind of a single character: index of its last occurrence. -/
def strRFind (s : String) (c : Char) : Option Nat :=
  match s.toList.reverse.findIdx? (fun x => x = c) with
  | some i => some (s.toList.length - 1 - i)
  | none => none

/-- Two-stage parse at the end of openai_one_call, over an abstract JSON
reader loads (the Python json.loads, returning none on a parse exception):
strict parse of the raw body, then the salvage attempt on the substring from
the first opening brace to the last closing brace, then failure, re-raising
the parse error. -/
def openai_parse (loads : String → Option LLMOut) (raw : String) : Except String LLMOut :=
  match loads raw with
  | some v => Except.ok v
  | none =>
    match strFind raw '{', strRFind raw '}' with
    | some s, some e =>
      if s < e then
        match loads (String.mk ((raw.toList.drop s).take (e + 1 - s))) with
        | some v => Except.ok v
        | none => Except.error "Expecting value: JSON parse error"
      else Except.error "Expecting value: JSON parse error"
    | _, _ => Except.error "Expecting value: JSON parse error"

/-- Result Record assembled by the submitted handler: the five structured
outputs plus the advisory llm_error surfaced when the external call failed. -/
structure ResultRecord where
  intent : Intent
  biases : List String
  confidence : Int
  counterarguments : List String
  impacts : List String
  recommendations : List String
  llm_error : Option String
deriving DecidableEq

/-- mode_label dict of the submitted handler, keyed exactly on 1..5. -/
def mode_label (disagree_level : Nat) : Option String :=
  List.lookup disagree_level
    [(1, "Gentle nudge 🤝"), (2, "Constructive challenge 🧐"), (3, "Devil’s advocate 😈"),
     (4, "Hard pushback ⚠️"), (5, "Brutally honest 🔥")]

/-- Orchestration of the submitted handler: parse the intent, detect biases,
score confidence, then generate the outputs in the requested mode. use_openai
stands for the conjunction `use_openai and HAS_OPENAI` of the source, and ext
for the outcome of openai_one_call, consulted only in external-call mode.
Returns none exactly when a dict lookup on the intensity level raises
KeyError. -/
def analyze (decision_text context_text : String) (disagree_level : Nat)
    (use_openai : Bool) (ext : CallResult) : Option ResultRecord :=
  match mode_label disagree_level with
  | none => none
  | some _ =>
    let intent := intent_decoder decision_text context_text
    let biases := bias_detector intent
    let conf := confidence_score decision_text context_text
    if use_openai then
      match ext with
      | CallResult.ok out =>
        some { intent := intent, biases := biases, confidence := conf
               counterarguments := out.counterarguments.getD []
               impacts := out.impacts.getD []
               recommendations := out.recommendations.getD []
               llm_error := none }
      | CallResult.err e =>
        match counterargument_generator intent disagree_level with
        | none => none
        | some cs =>
          some { intent := intent, biases := biases, confidence := conf
                 counterarguments := cs
                 impacts := second_order_impacts intent disagree_level
                 recommendations := derisk_recommendations disagree_level
                 llm_error := some e }
    else
      match counterargument_generator intent disagree_level with
      | none => none
      | some cs =>
        some { intent := intent, biases := biases, confidence := conf
               counterarguments := cs
               impacts := second_order_impacts intent disagree_level
               recommendations := derisk_recommendations disagree_level
               llm_error := none }

/-! Helper lemmas shared by the claim theorems. -/

theorem toNat_toLower_upper {ch : Char} (h : 65 ≤ ch.toNat ∧ ch.toNat ≤ 90) :
    (Char.toLower ch).toNat = ch.toNat + 32 := by
  unfold Char.toLower
  rw [if_pos h]
  have hv : (ch.toNat + 32).isValidChar := Or.inl (by omega)
  rw [Char.ofNat, dif_pos hv]
  rfl

theorem toLower_eq_self_of_not {ch : Char} (h : ¬(65 ≤ ch.toNat ∧ ch.toNat ≤ 90)) :
    Char.toLower ch = ch := by
  unfold Char.toLower
  exact if_neg h

theorem toLower_toLower (ch : Char) : ch.toLower.toLower = ch.toLower := by
  by_cases h : 65 ≤ ch.toNat ∧ ch.toNat ≤ 90
  · exact toLower_eq_self_of_not (by
      intro hcon
      rw [toNat_toLower_upper h] at hcon
      omega)
  · rw [toLower_eq_self_of_not h]
    exact toLower_eq_self_of_not h

theorem lower_lower (s : String) : lower (lower s) = lower s := by
  show String.mk ((s.toList.map Char.toLower).map Char.toLower) = String.mk (s.toList.map Char.toLower)
  rw [List.map_map]
  exact congrArg String.mk (List.map_congr_left (fun a _ => toLower_toLower a))

theorem contains_any_of_strContains {t k : String} {kws : List String} (hk : k ∈ kws)
    (h : strContains (lower t) k = true) : contains_any (lower t) kws = true := by
  unfold contains_any
  rw [lower_lower]
  exact List.any_eq_true.2 ⟨k, hk, h⟩

theorem not_mem_ite_singleton {c : Prop} [Decidable c] {a x : String} (hne : a ≠ x) :
    a ∉ (if c then [x] else []) := by
  split
  · simpa using hne
  · simp

theorem premortem_not_mem_counterTemplates (it : Intent) :
    premortemPrompt ∉ counterTemplates it := by
  simp only [counterTemplates, List.mem_append, not_or]
  refine ⟨⟨⟨⟨⟨?_, ?_⟩, ?_⟩, ?_⟩, ?_⟩, ?_⟩ <;> exact not_mem_ite_singleton (by decide)

theorem premortem_not_mem_counterBase (it : Intent) : premortemPrompt ∉ counterBase it := by
  unfold counterBase
  split
  · decide
  · exact premortem_not_mem_counterTemplates it

theorem counterBase_ne_nil (it : Intent) : counterBase it ≠ [] := by
  unfold counterBase
  split
  · simp
  · assumption

theorem mem_take_append_singleton {a : String} {b : List String} {n : Nat} (ha : a ∉ b) :
    a ∈ (b ++ [a]).take n ↔ b.length + 1 ≤ n := by
  constructor
  · intro h
    by_contra hn
    rw [List.take_append_of_le_length (by omega)] at h
    exact ha (List.take_subset _ _ h)
  · intro h
    rw [List.take_of_length_le (by simp; omega)]
    simp

theorem cg_length {it : Intent} {L : Nat} {cs : List String} (h1 : 1 ≤ L) (h2 : L ≤ 5)
    (h : counterargument_generator it L = some cs) :
    cs.length = min ((maxN L).getD 0)
      ((counterBase it).length + (if 3 ≤ L then 1 else 0) + (if 5 ≤ L then 1 else 0)) := by
  interval_cases L
  · have e : counterargument_generator it 1 = some ((counterBase it).take 2) := rfl
    rw [e] at h
    cases h
    simp [List.length_take, maxN, List.lookup]
  · have e : counterargument_generator it 2 = some ((counterBase it).take 3) := rfl
    rw [e] at h
    cases h
    simp [List.length_take, maxN, List.lookup]
  · have e : counterargument_generator it 3 =
        some ((counterBase it ++ [premortemPrompt]).take 4) := rfl
    rw [e] at h
    cases h
    simp [List.length_take, maxN, List.lookup]
  · have e : counterargument_generator it 4 =
        some ((counterBase it ++ [premortemPrompt]).take 5) := rfl
    rw [e] at h
    cases h
    simp [List.length_take, maxN, List.lookup]
  · have e : counterargument_generator it 5 =
        some (((counterBase it ++ [premortemPrompt]) ++ [irreversiblePrompt]).take 6) := rfl
    rw [e] at h
    cases h
    simp [List.length_take, maxN, List.lookup]

theorem mem_ite_nil {fs : List String} {lbl s : String} (h : lbl ∈ fs) :
    lbl ∈ (if fs = [] then [s] else fs) := by
  split
  case _ he => exact absurd (he ▸ h) (by simp)
  case _ => exact h

/-! Claim theorems. -/

/-- C2: for all decision and context strings the confidence score equals
55 plus clamp(4 times the numeric-token count of the combined text, 0, 20),
plus 10 for an evidentiary marker, minus 15 for an absolute-certainty marker,
minus 10 for a short decision, minus 5 for a short context, clamped to 0..100;
both inputs empty give exactly 40, and the result is always within 0..100. -/
theorem C2_confidence_score_formula :
    (∀ d c : String,
      confidence_score d c =
        clamp (55 + clamp ((count_numbers (d ++ " " ++ c) : Int) * 4) 0 20
          + (if contains_any (lower (d ++ " " ++ c)) ["because", "due to", "based on", "data", "analysis", "pilot", "experiment", "evidence"] then 10 else 0)
          - (if contains_any (lower (d ++ " " ++ c)) ["no-brainer", "guaranteed", "can't fail", "can’t fail", "zero risk", "no risk"] then 15 else 0)
          - (if (pstrip d).length < 40 then 10 else 0)
          - (if (pstrip c).length < 20 then 5 else 0)) 0 100 ∧
      0 ≤ confidence_score d c ∧ confidence_score d c ≤ 100) ∧
    confidence_score "" "" = 40 := by
  refine ⟨fun d c => ⟨?_, ?_, ?_⟩, by decide⟩
  · simp only [confidence_score]
    split_ifs <;> (congr 1) <;> omega
  · simp only [confidence_score, clamp]
    exact le_max_left _ _
  · simp only [confidence_score, clamp]
    exact max_le (by norm_num) (min_le_left _ _)

/-- C6: the bias detector's output is exactly the sentinel entry when none of
the four rules fires on the lower-cased decision text, and exactly the labels
of the fired rules in the fixed rule-check order otherwise; every fired rule's
label appears in the output, which is never empty and duplicate-free. -/
theorem C6_bias_detector_output :
    ∀ it : Intent,
      bias_detector it =
        (if firedBiasLabels it = [] then [noBiasSentinel] else firedBiasLabels it) ∧
      ((∀ r ∈ biasRules, contains_any (lower it.decision) r.1 = false) →
        bias_detector it = [noBiasSentinel]) ∧
      (∀ r ∈ biasRules, contains_any (lower it.decision) r.1 = true →
        r.2 ∈ bias_detector it) ∧
      bias_detector it ≠ [] ∧
      (bias_detector it).Nodup := by
  intro it
  have key : bias_detector it =
      (if firedBiasLabels it = [] then [noBiasSentinel] else firedBiasLabels it) := by
    cases h1 : contains_any (lower it.decision)
        ["no-brainer", "sure", "guaranteed", "can’t fail", "can't fail"] <;>
    cases h2 : contains_any (lower it.decision) ["everyone", "obvious", "clearly"] <;>
    cases h3 : contains_any (lower it.decision) ["quick", "fast", "asap", "immediately"] <;>
    cases h4 : contains_any (lower it.decision)
        ["we've already invested", "sunk cost", "too much to stop"] <;>
      simp [bias_detector, firedBiasLabels, biasRules, List.filter_cons, h1, h2, h3, h4]
  refine ⟨key, ?_, ?_, ?_, ?_⟩
  · intro hall
    have hf : firedBiasLabels it = [] := by
      have he : biasRules.filter (fun r => contains_any (lower it.decision) r.1) = [] := by
        rw [List.filter_eq_nil_iff]
        intro a ha
        simp [hall a ha]
      simp [firedBiasLabels, he]
    rw [key, if_pos hf]
  · intro r hr hcond
    have hmem : r.2 ∈ firedBiasLabels it :=
      List.mem_map.2 ⟨r, List.mem_filter.2 ⟨hr, by simp [hcond]⟩, rfl⟩
    rw [key, if_neg (by intro h0; rw [h0] at hmem; exact absurd hmem (by simp))]
    exact hmem
  · rw [key]
    split
    · simp
    · assumption
  · rw [key]
    split
    · simp
    · exact List.Nodup.sublist ((List.filter_sublist _).map _) (by decide)

/-- C6 witness: a decision firing no rule yields exactly the sentinel, and one
firing the social-proof and speed rules yields exactly those fired labels. -/
theorem C6_witness :
    bias_detector (intent_decoder "do it" "") = [noBiasSentinel] ∧
    bias_detector (intent_decoder "it is obvious and quick" "") =
      firedBiasLabels (intent_decoder "it is obvious and quick" "") := by
  constructor
  · exact (C6_bias_detector_output (intent_decoder "do it" "")).2.1 (by decide)
  · rw [(C6_bias_detector_output (intent_decoder "it is obvious and quick" "")).1]
    rw [if_neg (by decide)]

/-- C7: for every intensity level in 1..5 the recommendation generator returns
the first three entries of the fixed four-entry de-risking list when the level
is at most 3, and all four entries when it is 4 or 5. -/
theorem C7_recommendation_tiers :
    ∀ L : Nat, 1 ≤ L → L ≤ 5 →
      (L ≤ 3 → derisk_recommendations L =
        ["Run a time-bound pilot to validate key assumptions before full commitment.",
         "Define explicit go/no-go criteria (metrics, thresholds, owners, dates).",
         "Stage funding/spend in tranches tied to outcomes rather than upfront commitments."]) ∧
      (4 ≤ L → derisk_recommendations L = derisk_recs_list) := by
  intro L h1 h2
  interval_cases L <;> refine ⟨?_, ?_⟩ <;> intro h <;>
    first
      | rfl
      | exact absurd h (by omega)

/-- C7 witness: at level 4 all four recommendations are returned. -/
theorem C7_witness : derisk_recommendations 4 = derisk_recs_list :=
  (C7_recommendation_tiers 4 (by decide) (by decide)).2 (by decide)

/-- C8: heuristic mode is deterministic: the result record depends only on the
decision text, the context text and the intensity level, and in particular is
independent of the external collaborator, so two consecutive heuristic-mode
analyses of the same input produce identical Result Records. -/
theorem C8_heuristic_deterministic :
    ∀ (d c : String) (L : Nat) (e1 e2 : CallResult),
      analyze d c L false e1 = analyze d c L false e2 := by
  intro d c L e1 e2
  cases hm : mode_label L <;> simp [analyze, hm]

/-- C4: for a fixed intent and intensity levels L1 < L2 within 1..5, the
counterargument, impact and recommendation counts of the heuristic pipeline
are monotonically non-decreasing in the level. -/
theorem C4_monotone_output_counts :
    ∀ (it : Intent) (L1 L2 : Nat), 1 ≤ L1 → L1 < L2 → L2 ≤ 5 →
      ∀ cs1 cs2 : List String,
        counterargument_generator it L1 = some cs1 →
        counterargument_generator it L2 = some cs2 →
        cs1.length ≤ cs2.length ∧
        (second_order_impacts it L1).length ≤ (second_order_impacts it L2).length ∧
        (derisk_recommendations L1).length ≤ (derisk_recommendations L2).length := by
  intro it L1 L2 h1 h12 h2 cs1 cs2 hc1 hc2
  have e1 := cg_length (by omega) (by omega) hc1
  have e2 := cg_length (by omega) (by omega) hc2
  have hu : L1 ≤ 4 := by omega
  refine ⟨?_, ?_, ?_⟩
  · rw [e1, e2]
    interval_cases L1 <;> interval_cases L2 <;> simp [maxN, List.lookup] <;> omega
  · simp only [second_order_impacts, List.length_append]
    split_ifs <;> simp <;> omega
  · unfold derisk_recommendations
    split_ifs <;> first | decide | omega

/-- C4 witness: for the intent of decision "x" the counts at level 1 are below
those at level 5. -/
theorem C4_witness :
    ((counterargument_generator (intent_decoder "x" "") 1).getD []).length ≤
      ((counterargument_generator (intent_decoder "x" "") 5).getD []).length ∧
    (second_order_impacts (intent_decoder "x" "") 1).length ≤
      (second_order_impacts (intent_decoder "x" "") 5).length ∧
    (derisk_recommendations 1).length ≤ (derisk_recommendations 5).length :=
  C4_monotone_output_counts (intent_decoder "x" "") 1 5 (by decide) (by decide) (by decide)
    ((counterargument_generator (intent_decoder "x" "") 1).getD [])
    ((counterargument_generator (intent_decoder "x" "") 5).getD [])
    (by decide) (by decide)

set_option maxHeartbeats 2000000 in
/-- C1 counterexample: at intensity 3, the decision "launch asap marketing
scale" fires four conditional templates, the pre-mortem prompt is appended
fifth and then cut by the cap of 4, so the returned counterarguments do not
contain the pre-mortem prompt: the appended items are not additive beyond the
cap. -/
theorem C1_counterexample :
    (counterargument_generator (intent_decoder "launch asap marketing scale" "") 3).isSome = true ∧
    premortemPrompt ∉
      (counterargument_generator (intent_decoder "launch asap marketing scale" "") 3).getD [] := by
  constructor
  · decide
  · decide

/-- C1 (amended): the generator appends the pre-mortem prompt at intensity 3
and above and the irreversible-cost prompt at intensity 5 before truncating
the combined list to the cap given by the mapping 1 to 2, 2 to 3, 3 to 4,
4 to 5, 5 to 6, so the appended items count against the cap; at intensity 3
the output contains the pre-mortem prompt iff at most 3 conditional
counterarguments fired. -/
theorem C1_truncation_after_additions :
    ∀ (it : Intent) (L : Nat), 1 ≤ L → L ≤ 5 →
      counterargument_generator it L =
        some ((counterBase it ++ (if 3 ≤ L then [premortemPrompt] else []) ++
          (if 5 ≤ L then [irreversiblePrompt] else [])).take ((maxN L).getD 0)) ∧
      (L = 3 → ∀ out, counterargument_generator it L = some out →
        (premortemPrompt ∈ out ↔ (counterBase it).length ≤ 3)) := by
  intro it L h1 h2
  interval_cases L
  · exact ⟨by simp [counterargument_generator, maxN, List.lookup], by simp⟩
  · exact ⟨by simp [counterargument_generator, maxN, List.lookup], by simp⟩
  · refine ⟨by simp [counterargument_generator, maxN, List.lookup], fun _ out hout => ?_⟩
    have e : counterargument_generator it 3 =
        some ((counterBase it ++ [premortemPrompt]).take 4) := rfl
    rw [e] at hout
    obtain rfl := Option.some.inj hout
    rw [mem_take_append_singleton (premortem_not_mem_counterBase it)]
    omega
  · exact ⟨by simp [counterargument_generator, maxN, List.lookup], by simp⟩
  · exact ⟨by simp [counterargument_generator, maxN, List.lookup], by simp⟩

/-- C1 witness: the amended membership criterion evaluated for the empty
decision at intensity 3. -/
theorem C1_witness :
    premortemPrompt ∈ (counterargument_generator (intent_decoder "" "") 3).getD [] ↔
      (counterBase (intent_decoder "" "")).length ≤ 3 :=
  (C1_truncation_after_additions (intent_decoder "" "") 3 (by decide) (by decide)).2 rfl
    ((counterargument_generator (intent_decoder "" "") 3).getD []) (by decide)

set_option maxHeartbeats 2000000 in
/-- C3: when the external call fails for any reason, the pipeline returns the
heuristic counterarguments, impacts and recommendations, surfaces the failure
message as a non-fatal advisory, and still produces a complete Result Record;
in particular a body that fails strict parsing and has no opening brace for
the salvage attempt makes openai_one_call fail. -/
theorem C3_external_failure_fallback :
    ∀ (d c : String) (L : Nat) (msg : String), 1 ≤ L → L ≤ 5 →
      analyze d c L true (CallResult.err msg) =
        some { intent := intent_decoder d c
               biases := bias_detector (intent_decoder d c)
               confidence := confidence_score d c
               counterarguments := (counterargument_generator (intent_decoder d c) L).getD []
               impacts := second_order_impacts (intent_decoder d c) L
               recommendations := derisk_recommendations L
               llm_error := some msg } ∧
      (counterargument_generator (intent_decoder d c) L).isSome = true ∧
      (∀ (loads : String → Option LLMOut) (raw : String), loads raw = none →
        strFind raw '{' = none →
        openai_parse loads raw = Except.error "Expecting value: JSON parse error") := by
  intro d c L msg h1 h2
  refine ⟨?_, ?_, ?_⟩
  · interval_cases L <;> rfl
  · interval_cases L <;> rfl
  · intro loads raw hl hf
    unfold openai_parse
    rw [hl, hf]

set_option maxHeartbeats 2000000 in
/-- C3 witness: the fallback record for a concrete failing call. -/
theorem C3_witness :
    analyze "a" "b" 3 true (CallResult.err "boom") =
      some { intent := intent_decoder "a" "b"
             biases := bias_detector (intent_decoder "a" "b")
             confidence := confidence_score "a" "b"
             counterarguments := (counterargument_generator (intent_decoder "a" "b") 3).getD []
             impacts := second_order_impacts (intent_decoder "a" "b") 3
             recommendations := derisk_recommendations 3
             llm_error := some "boom" } :=
  (C3_external_failure_fallback "a" "b" 3 "boom" (by decide) (by decide)).1

set_option maxHeartbeats 2000000 in
/-- C10: a parsed external reply lacking the expected keys yields empty
counterarguments, impacts and recommendations with no advisory message and no
fallback (the heuristic counterarguments are never empty, so the empty output
is distinguishable from a fallback). -/
theorem C10_missing_keys_silent_empty :
    ∀ (d c : String) (L : Nat), 1 ≤ L → L ≤ 5 →
      analyze d c L true
          (CallResult.ok { counterarguments := none, impacts := none, recommendations := none }) =
        some { intent := intent_decoder d c
               biases := bias_detector (intent_decoder d c)
               confidence := confidence_score d c
               counterarguments := []
               impacts := []
               recommendations := []
               llm_error := none } ∧
      (∀ cs, counterargument_generator (intent_decoder d c) L = some cs → cs ≠ []) := by
  intro d c L h1 h2
  constructor
  · interval_cases L <;> rfl
  · intro cs hcs
    have e := cg_length h1 h2 hcs
    have hb : 0 < (counterBase (intent_decoder d c)).length :=
      List.length_pos.2 (counterBase_ne_nil _)
    have hlen : 0 < cs.length := by
      rw [e]
      interval_cases L <;> simp [maxN, List.lookup] <;> omega
    exact List.length_pos.1 hlen

set_option maxHeartbeats 2000000 in
/-- C10 witness: a concrete reply with all keys missing. -/
theorem C10_witness :
    analyze "a" "" 2 true
        (CallResult.ok { counterarguments := none, impacts := none, recommendations := none }) =
      some { intent := intent_decoder "a" ""
             biases := bias_detector (intent_decoder "a" "")
             confidence := confidence_score "a" ""
             counterarguments := []
             impacts := []
             recommendations := []
             llm_error := none } :=
  (C10_missing_keys_silent_empty "a" "" 2 (by decide) (by decide)).1

/-- C5: the intent decoder trims both inputs; the timeframe field is the
number and unit of the first match of the timeframe regex over the lower-cased
trimmed decision text, and "Not specified" when there is no match, in
particular for the empty decision; the decoder is total and always yields a
well-formed record. -/
theorem C5_timeframe_extraction :
    ∀ d c : String,
      (intent_decoder d c).decision = pstrip d ∧
      (intent_decoder d c).context = pstrip c ∧
      (tfSearch false (lower (pstrip d)).toList = none →
        (intent_decoder d c).timeframe = "Not specified") ∧
      (∀ n u : String, tfSearch false (lower (pstrip d)).toList = some (n, u) →
        (intent_decoder d c).timeframe = n ++ " " ++ u) ∧
      (intent_decoder "" c).timeframe = "Not specified" := by
  intro d c
  refine ⟨rfl, rfl, ?_, ?_, rfl⟩
  · intro h
    simp only [intent_decoder, h]
  · intro n u h
    simp only [intent_decoder, h]

/-- C5 witness: a decision with a timeframe phrase, extracted as number and
unit. -/
theorem C5_witness :
    (intent_decoder "Ship it within 2 weeks" "").timeframe = "2" ++ " " ++ "weeks" :=
  (C5_timeframe_extraction "Ship it within 2 weeks" "").2.2.2.1 "2" "weeks" (by decide)

/-- C9: keyword detection is raw substring matching without word boundaries:
any parsed decision whose lower-cased text contains "quick" (for example via
"quickly") fires the Optimism / planning fallacy rule, and any whose
lower-cased text contains "sure" (for example via "pressure" or "ensure")
sets the certainty signal and fires the Overconfidence bias rule. -/
theorem C9_substring_keyword_matching :
    ∀ d c : String,
      (strContains (lower (intent_decoder d c).decision) "quick" = true →
        "Optimism / planning fallacy" ∈ bias_detector (intent_decoder d c)) ∧
      (strContains (lower (pstrip d)) "sure" = true →
        (intent_decoder d c).signals.certainty = true ∧
        "Overconfidence bias" ∈ bias_detector (intent_decoder d c)) ∧
      "Optimism / planning fallacy" ∈
        bias_detector (intent_decoder "Everyone says we can win quickly" "") ∧
      (intent_decoder "They work under pressure to ensure delivery" "").signals.certainty = true ∧
      "Overconfidence bias" ∈
        bias_detector (intent_decoder "They work under pressure to ensure delivery" "") := by
  intro d c
  refine ⟨?_, ?_, by decide, by decide, by decide⟩
  · intro h
    have h3 : contains_any (lower (intent_decoder d c).decision)
        ["quick", "fast", "asap", "immediately"] = true :=
      contains_any_of_strContains (by decide) h
    simp only [bias_detector]
    refine mem_ite_nil ?_
    simp [h3]
  · intro h
    constructor
    · simp only [intent_decoder, contains_any]
      exact List.any_eq_true.2 ⟨"sure", by decide, h⟩
    · have h1 : contains_any (lower (intent_decoder d c).decision)
          ["no-brainer", "sure", "guaranteed", "can’t fail", "can't fail"] = true :=
        contains_any_of_strContains (by decide) h
      simp only [bias_detector]
      refine mem_ite_nil ?_
      simp [h1]

/-- C9 witness: a decision containing the keyword "quick" only inside the
longer word "quickly" still fires the Optimism / planning fallacy rule. -/
theorem C9_witness :
    "Optimism / planning fallacy" ∈ bias_detector (intent_decoder "We must move quickly" "") :=
  (C9_substring_keyword_matching "We must move quickly" "").1 (by decide)

/-- Sanity check of the timeframe extraction on the default form text. -/
theorem timeframe_default_example :
    (intent_decoder "We should launch Product X in 3 months" "").timeframe = "3 months" := by
  decide

/-- Sanity check of the numeric-token counter on the default context text. -/
theorem count_numbers_default_example :
    count_numbers "Assumption: 30% conversion; CAC $50." = 2 := by
  decide

end DisagreeApp
